import Mathlib

/-!
Shallow embedding of the shadowportal middleware client, the restore
path-guard and the snapshot service (src/utils/zfs.py, src/utils/paths.py,
src/services/zfs_service.py), together with theorems settling the
specification's claims about them.

Python strings are modelled as Lean `String` (character lists), Python ints
as `Int`, JSON values as the inductive `JVal` below.  Filesystem-dependent
behaviour (os.path.realpath) is abstracted as a function parameter; the
lexical model `realpath_nosymlink` evaluates it on a symlink-free
filesystem.  Raising an exception is modelled as `Except.error`.
-/

namespace Shadowportal

/-- Checks that `p` is a leading segment of `s` (Python `str.startswith`
restricted to character lists). -/
def listLeads : List Char → List Char → Bool
  | [], _ => true
  | _ :: _, [] => false
  | p :: ps, c :: cs => p == c && listLeads ps cs

/-- Checks that `pat` occurs inside `s` as a contiguous run (Python `in`
on strings, over character lists). -/
def listContainsSub : List Char → List Char → Bool
  | [], pat => pat.isEmpty
  | c :: rest, pat => listLeads pat (c :: rest) || listContainsSub rest pat

/-- Python `pat in s` for strings. -/
def strContains (s pat : String) : Bool :=
  listContainsSub s.data pat.data

/-- Python `s.startswith(p)`. -/
def strStartsWith (s p : String) : Bool :=
  listLeads p.data s.data

/-- Python `s.endswith(p)`. -/
def strEndsWith (s p : String) : Bool :=
  listLeads p.data.reverse s.data.reverse

/-- Python `s[n:]` for a character index `n`. -/
def strDrop (s : String) (n : Nat) : String :=
  String.mk (s.data.drop n)

/-- Helper for `splitSlash`: accumulates the current component (reversed). -/
def splitSlashAux : List Char → List Char → List String
  | [], acc => [String.mk acc.reverse]
  | c :: rest, acc =>
    if c == '/' then String.mk acc.reverse :: splitSlashAux rest []
    else splitSlashAux rest (c :: acc)

/-- Python `s.split("/")`. -/
def splitSlash (s : String) : List String :=
  splitSlashAux s.data []

/-- Joins components with "/" (Python `"/".join(comps)`). -/
def joinSlash : List String → String
  | [] => ""
  | [x] => x
  | x :: y :: rest => x ++ "/" ++ joinSlash (y :: rest)

/-- Component processing loop of `posixpath.normpath`: skips empty and "."
components, resolves ".." against the accumulated stack (for an absolute
path a leading ".." is dropped; for a relative path it is kept). -/
def normAux (isAbs : Bool) : List String → List String → List String
  | [], acc => acc.reverse
  | comp :: rest, acc =>
    if comp == "" || comp == "." then normAux isAbs rest acc
    else if comp != ".." then normAux isAbs rest (comp :: acc)
    else
      match acc with
      | [] => if isAbs then normAux isAbs rest [] else normAux isAbs rest [".."]
      | top :: below =>
        if top == ".." then normAux isAbs rest (".." :: top :: below)
        else normAux isAbs rest below

/-- Python `posixpath.normpath` (lexical normalization; a leading double
slash is preserved, as in CPython). -/
def pyNormpath (p : String) : String :=
  if p == "" then "."
  else
    let initialSlashes : Nat :=
      if strStartsWith p "//" && !(strStartsWith p "///") then 2
      else if strStartsWith p "/" then 1 else 0
    let comps := normAux (initialSlashes > 0) (splitSlash p) []
    let joined := joinSlash comps
    let res :=
      (if initialSlashes == 2 then "//" else if initialSlashes == 1 then "/" else "")
        ++ joined
    if res == "" then "." else res

/-- Python `posixpath.join` on two components. -/
def pyJoin2 (a b : String) : String :=
  if strStartsWith b "/" then b
  else if a == "" || strEndsWith a "/" then a ++ b
  else a ++ "/" ++ b

/-- Python `os.path.join(x, y, z, ...)` folded over a component list. -/
def pyJoin : List String → String
  | [] => ""
  | x :: rest => rest.foldl pyJoin2 x

/-- Python `s.lstrip("/")`. -/
def pyLStripSlash (s : String) : String :=
  String.mk (s.data.dropWhile (fun c => c == '/'))

/-- Value of `os.path.realpath` on an absolute path when no component of
the filesystem is a symlink: symlink resolution degenerates to the lexical
normalization performed by `posixpath.normpath`. -/
def realpath_nosymlink (p : String) : String :=
  pyNormpath p

/-- JSON values as exchanged with the middleware (`json.loads`/`json.dumps`
payloads).  Python bools are kept distinct from ints because the code uses
the identity test `is True`. -/
inductive JVal where
  | jnull : JVal
  | jbool : Bool → JVal
  | jint : Int → JVal
  | jstr : String → JVal
  | jarr : List JVal → JVal
  | jobj : List (String × JVal) → JVal

/-- Python truthiness of a JSON value (floats do not occur in this model). -/
def pyTruthy : JVal → Bool
  | .jnull => false
  | .jbool b => b
  | .jint n => n != 0
  | .jstr s => s != ""
  | .jarr xs => !xs.isEmpty
  | .jobj fs => !fs.isEmpty

/-- Python `d.get(k)` on a decoded JSON object; `None` (here `jnull`) when
the key is missing or the value is not an object. -/
def jGet (v : JVal) (k : String) : JVal :=
  match v with
  | .jobj fields => (fields.lookup k).getD .jnull
  | _ => .jnull

/-- Python `v == s` for a string literal `s` (false whenever `v` is not a
string). -/
def jEqStr (v : JVal) (s : String) : Bool :=
  match v with
  | .jstr t => t == s
  | _ => false

/-- Python `v == n` for an int `n`; Python treats `True` as `1` and
`False` as `0` in numeric comparisons. -/
def jEqIntPy (v : JVal) (n : Int) : Bool :=
  match v with
  | .jint m => m == n
  | .jbool b => (if b then (1 : Int) else 0) == n
  | _ => false

/-- Map container path `/data/...` to host path `/mnt/...`
(src/utils/paths.py `container_to_host_path`). -/
def container_to_host_path (p : String) : String :=
  if strStartsWith p "/data/" then "/mnt/" ++ strDrop p 6 else p

/-- Map host path `/mnt/...` to container path `/data/...`
(src/utils/paths.py `host_to_container_path`). -/
def host_to_container_path (p : String) : String :=
  if strStartsWith p "/mnt/" then "/data/" ++ strDrop p 5 else p

/-- Inner `_in_data` check of `validate_restore_paths`: the resolved path
equals the resolved base root or extends it past a path separator. -/
def in_data (base_root p : String) : Bool :=
  p == base_root || strStartsWith p (base_root ++ "/")

/-- Restore-path guard of src/utils/zfs.py `validate_restore_paths`.
`realpath` abstracts `os.path.realpath` (filesystem dependent). -/
def validate_restore_paths (realpath : String → String)
    (source_path target_path : String) : Except String Bool :=
  if strContains source_path ".zfs/snapshot/" = false then
    .error "Source must be inside a snapshot path"
  else if strContains target_path ".zfs/snapshot" = true then
    .error "Target must not be inside a snapshot path"
  else
    let base_root := realpath "/data"
    let src_real := realpath source_path
    let tgt_real := realpath target_path
    if !(in_data base_root src_real) || !(in_data base_root tgt_real) then
      .error "Restore paths must reside under /data"
    else
      .ok true

/-- Helper `_real_under` of src/utils/paths.py. -/
def _real_under (realpath : String → String) (root path : String) : Bool :=
  let root_real := realpath root
  let path_real := realpath path
  path_real == root_real || strStartsWith path_real (root_real ++ "/")

/-- Restore-path guard of src/utils/paths.py `validate_container_restore_paths`. -/
def validate_container_restore_paths (realpath : String → String)
    (src_container dst_container : String) : Except String Bool :=
  if strContains src_container ".zfs/snapshot/" = false then
    .error "Source must be inside a .zfs/snapshot path"
  else if strContains dst_container ".zfs/snapshot" = true then
    .error "Destination must not be inside a snapshot path"
  else if !(_real_under realpath "/data" src_container)
          || !(_real_under realpath "/data" dst_container) then
    .error "Restore paths must reside under /data"
  else
    .ok true

theorem listLeads_iff (p s : List Char) : listLeads p s = true ↔ ∃ t, s = p ++ t := by
  induction p generalizing s with
  | nil => simp [listLeads]
  | cons a ps ih =>
    cases s with
    | nil => simp [listLeads]
    | cons c cs =>
      simp only [listLeads, Bool.and_eq_true, beq_iff_eq, ih, List.cons_append,
        List.cons.injEq]
      constructor
      · rintro ⟨rfl, t, rfl⟩; exact ⟨t, rfl, rfl⟩
      · rintro ⟨t, rfl, rfl⟩; exact ⟨rfl, t, rfl⟩

theorem listLeads_append (p t : List Char) : listLeads p (p ++ t) = true :=
  (listLeads_iff p (p ++ t)).2 ⟨t, rfl⟩

theorem strData_append (a b : String) : (a ++ b).data = a.data ++ b.data := by
  cases a; cases b; rfl

theorem strExt (a b : String) (h : a.data = b.data) : a = b := by
  cases a; cases b; exact congrArg String.mk h

theorem validate_restore_paths_ok_iff (realpath : String → String) (src tgt : String) :
    validate_restore_paths realpath src tgt = .ok true ↔
      (strContains src ".zfs/snapshot/" = true
        ∧ strContains tgt ".zfs/snapshot" = false
        ∧ in_data (realpath "/data") (realpath src) = true
        ∧ in_data (realpath "/data") (realpath tgt) = true) := by
  rcases Bool.eq_false_or_eq_true (strContains src ".zfs/snapshot/") with h1 | h1 <;>
    rcases Bool.eq_false_or_eq_true (strContains tgt ".zfs/snapshot") with h2 | h2 <;>
    rcases Bool.eq_false_or_eq_true (in_data (realpath "/data") (realpath src)) with h3 | h3 <;>
    rcases Bool.eq_false_or_eq_true (in_data (realpath "/data") (realpath tgt)) with h4 | h4 <;>
    simp [validate_restore_paths, h1, h2, h3, h4]

theorem validate_container_restore_paths_ok_iff (realpath : String → String)
    (src tgt : String) :
    validate_container_restore_paths realpath src tgt = .ok true ↔
      (strContains src ".zfs/snapshot/" = true
        ∧ strContains tgt ".zfs/snapshot" = false
        ∧ in_data (realpath "/data") (realpath src) = true
        ∧ in_data (realpath "/data") (realpath tgt) = true) := by
  have e1 : _real_under realpath "/data" src = in_data (realpath "/data") (realpath src) := rfl
  have e2 : _real_under realpath "/data" tgt = in_data (realpath "/data") (realpath tgt) := rfl
  rcases Bool.eq_false_or_eq_true (strContains src ".zfs/snapshot/") with h1 | h1 <;>
    rcases Bool.eq_false_or_eq_true (strContains tgt ".zfs/snapshot") with h2 | h2 <;>
    rcases Bool.eq_false_or_eq_true (in_data (realpath "/data") (realpath src)) with h3 | h3 <;>
    rcases Bool.eq_false_or_eq_true (in_data (realpath "/data") (realpath tgt)) with h4 | h4 <;>
    simp [validate_container_restore_paths, e1, e2, h1, h2, h3, h4]

/-- C1: both restore-path guards raise a path error if and only if one of
the three conditions fails: (a) the source string contains
".zfs/snapshot/", (b) the destination string does not contain
".zfs/snapshot", (c) the realpaths of source and destination each equal
the realpath of "/data" or extend it past a separator.  In particular (on
a symlink-free filesystem) a source inside a snapshot with a plain
destination succeeds, the swapped pair fails, and a source whose ".."
segments resolve outside the root fails. -/
theorem validate_restore_guard_characterization :
    (∀ (realpath : String → String) (src tgt : String),
        validate_restore_paths realpath src tgt = .ok true ↔
          (strContains src ".zfs/snapshot/" = true
            ∧ strContains tgt ".zfs/snapshot" = false
            ∧ in_data (realpath "/data") (realpath src) = true
            ∧ in_data (realpath "/data") (realpath tgt) = true))
    ∧ (∀ (realpath : String → String) (src tgt : String),
        validate_container_restore_paths realpath src tgt = .ok true ↔
          (strContains src ".zfs/snapshot/" = true
            ∧ strContains tgt ".zfs/snapshot" = false
            ∧ in_data (realpath "/data") (realpath src) = true
            ∧ in_data (realpath "/data") (realpath tgt) = true))
    ∧ validate_restore_paths realpath_nosymlink
        "/data/ds/.zfs/snapshot/s1/file" "/data/ds/file" = .ok true
    ∧ (∃ e, validate_restore_paths realpath_nosymlink
        "/data/ds/file" "/data/ds/.zfs/snapshot/s1/file" = .error e)
    ∧ (∃ e, validate_restore_paths realpath_nosymlink
        "/data/ds/.zfs/snapshot/s1/../../../../../etc/passwd" "/data/ds/x" = .error e) :=
  ⟨validate_restore_paths_ok_iff, validate_container_restore_paths_ok_iff,
    rfl, ⟨"Source must be inside a snapshot path", rfl⟩,
    ⟨"Restore paths must reside under /data", rfl⟩⟩

/-- C9: the two path-mapping functions are mutually inverse on their
domains (paths under "/mnt/" respectively "/data/"), and each is the
identity on inputs not carrying its expected leading segment. -/
theorem path_mapping_roundtrip :
    (∀ p, strStartsWith p "/mnt/" = true →
        container_to_host_path (host_to_container_path p) = p)
    ∧ (∀ q, strStartsWith q "/data/" = true →
        host_to_container_path (container_to_host_path q) = q)
    ∧ (∀ p, strStartsWith p "/data/" = false → container_to_host_path p = p)
    ∧ (∀ p, strStartsWith p "/mnt/" = false → host_to_container_path p = p) := by
  refine ⟨?_, ?_, ?_, ?_⟩
  · intro p h
    obtain ⟨t, ht⟩ := (listLeads_iff _ _).1 h
    have hdrop : strDrop p 5 = String.mk t := by
      have hlen : ("/mnt/".data).length = 5 := rfl
      simp only [strDrop, ht, ← hlen, List.drop_left]
    have hstart : strStartsWith ("/data/" ++ String.mk t) "/data/" = true := by
      simp only [strStartsWith, strData_append]
      exact listLeads_append _ _
    have hdrop2 : strDrop ("/data/" ++ String.mk t) 6 = String.mk t := by
      have hlen : ("/data/".data).length = 6 := rfl
      simp only [strDrop, strData_append, ← hlen, List.drop_left]
    simp only [host_to_container_path, h, if_true, hdrop,
      container_to_host_path, hstart, hdrop2]
    exact strExt _ _ (by simp [strData_append, ht])
  · intro q h
    obtain ⟨t, ht⟩ := (listLeads_iff _ _).1 h
    have hdrop : strDrop q 6 = String.mk t := by
      have hlen : ("/data/".data).length = 6 := rfl
      simp only [strDrop, ht, ← hlen, List.drop_left]
    have hstart : strStartsWith ("/mnt/" ++ String.mk t) "/mnt/" = true := by
      simp only [strStartsWith, strData_append]
      exact listLeads_append _ _
    have hdrop2 : strDrop ("/mnt/" ++ String.mk t) 5 = String.mk t := by
      have hlen : ("/mnt/".data).length = 5 := rfl
      simp only [strDrop, strData_append, ← hlen, List.drop_left]
    simp only [container_to_host_path, h, if_true, hdrop,
      host_to_container_path, hstart, hdrop2]
    exact strExt _ _ (by simp [strData_append, ht])
  · intro p h
    simp [container_to_host_path, h]
  · intro p h
    simp [host_to_container_path, h]

/-- Witness for the C9 theorem at concrete paths. -/
theorem path_mapping_roundtrip_witness :
    container_to_host_path (host_to_container_path "/mnt/tank/a") = "/mnt/tank/a"
    ∧ host_to_container_path (container_to_host_path "/data/tank/a") = "/data/tank/a"
    ∧ container_to_host_path "/etc/x" = "/etc/x"
    ∧ host_to_container_path "/etc/x" = "/etc/x" :=
  ⟨path_mapping_roundtrip.1 "/mnt/tank/a" rfl,
    path_mapping_roundtrip.2.1 "/data/tank/a" rfl,
    path_mapping_roundtrip.2.2.1 "/etc/x" rfl,
    path_mapping_roundtrip.2.2.2 "/etc/x" rfl⟩

/-- Connection state of `TrueNASClient`: whether the socket handle is set,
the authenticated flag, and the request-id counter `_id`. -/
structure ClientState where
  ws : Bool
  authed : Bool
  rid : Nat

/-- TrueNASClient.__init__: no socket, unauthenticated, counter at 0. -/
def initClient : ClientState := ⟨false, false, 0⟩

/-- TrueNASClient._next_id: increments the counter and returns the new value. -/
def next_id (st : ClientState) : Nat × ClientState :=
  (st.rid + 1, { st with rid := st.rid + 1 })

/-- Frame sent in reply to a ping. -/
def pongFrame : JVal := .jobj [("msg", .jstr "pong")]

/-- Mismatch test `expected_msg and msg.get("msg") != expected_msg`
(`expected_msg` is truthiness-guarded: `none` or the empty string disable
the check). -/
def msgMismatch : Option String → JVal → Bool
  | none, _ => false
  | some em, f => (em != "") && !(jEqStr (jGet f "msg") em)

/-- Mismatch test `expected_id is not None and msg.get("id") != expected_id`. -/
def idMismatch : Option Int → JVal → Bool
  | none, _ => false
  | some eid, f => !(jEqIntPy (jGet f "id") eid)

/-- Test `msg.get("msg") == "ping"`. -/
def isPing (f : JVal) : Bool := jEqStr (jGet f "msg") "ping"

/-- A frame the receive loop accepts: not a ping, and passing both
expectation checks. -/
def isMatch (em : Option String) (eid : Option Int) (f : JVal) : Bool :=
  !(isPing f) && !(msgMismatch em f) && !(idMismatch eid f)

/-- TrueNASClient._recv_until over an explicit list of incoming frames:
pings are answered with a pong and consumed, frames failing the
expectation checks are discarded, the first accepted frame is returned.
Result: (frames sent while waiting, accepted frame, remaining frames);
`none` models the Python loop blocking forever on an exhausted stream. -/
def recv_until (em : Option String) (eid : Option Int) :
    List JVal → List JVal → Option (List JVal × JVal × List JVal)
  | [], _ => none
  | f :: rest, sent =>
    if isPing f then recv_until em eid rest (sent ++ [pongFrame])
    else if msgMismatch em f then recv_until em eid rest sent
    else if idMismatch eid f then recv_until em eid rest sent
    else some (sent, f, rest)

theorem recv_until_characterization (em : Option String) (eid : Option Int) :
    ∀ (frames acc sent : List JVal) (f : JVal) (rest : List JVal),
      recv_until em eid frames acc = some (sent, f, rest) →
        isMatch em eid f = true
        ∧ ∃ pre, frames = pre ++ f :: rest
            ∧ (∀ g ∈ pre, isMatch em eid g = false)
            ∧ sent = acc ++ List.replicate (pre.countP isPing) pongFrame := by
  intro frames
  induction frames with
  | nil => intro acc sent f rest h; simp [recv_until] at h
  | cons g gs ih =>
    intro acc sent f rest h
    by_cases hp : isPing g = true
    · simp only [recv_until, hp, if_true] at h
      obtain ⟨hm, pre, hfr, hall, hsent⟩ := ih _ _ _ _ h
      refine ⟨hm, g :: pre, by simp [hfr], ?_, ?_⟩
      · intro x hx
        rcases List.mem_cons.mp hx with rfl | hx
        · simp [isMatch, hp]
        · exact hall x hx
      · simp [List.countP_cons, hp, hsent, List.replicate_succ, List.append_assoc]
    · have hp' : isPing g = false := by simpa using hp
      by_cases hmm : msgMismatch em g = true
      · simp only [recv_until, hp', Bool.false_eq_true, if_false, hmm, if_true] at h
        obtain ⟨hm, pre, hfr, hall, hsent⟩ := ih _ _ _ _ h
        refine ⟨hm, g :: pre, by simp [hfr], ?_, ?_⟩
        · intro x hx
          rcases List.mem_cons.mp hx with rfl | hx
          · simp [isMatch, hmm]
          · exact hall x hx
        · simp [List.countP_cons, hp', hsent]
      · have hmm' : msgMismatch em g = false := by simpa using hmm
        by_cases hid : idMismatch eid g = true
        · simp only [recv_until, hp', Bool.false_eq_true, if_false, hmm',
            hid, if_true] at h
          obtain ⟨hm, pre, hfr, hall, hsent⟩ := ih _ _ _ _ h
          refine ⟨hm, g :: pre, by simp [hfr], ?_, ?_⟩
          · intro x hx
            rcases List.mem_cons.mp hx with rfl | hx
            · simp [isMatch, hid]
            · exact hall x hx
          · simp [List.countP_cons, hp', hsent]
        · have hid' : idMismatch eid g = false := by simpa using hid
          simp only [recv_until, hp', Bool.false_eq_true, if_false, hmm', hid',
            Option.some.injEq, Prod.mk.injEq] at h
          obtain ⟨h1, h2, h3⟩ := h
          subst h2
          subst h3
          refine ⟨by simp [isMatch, hp', hmm', hid'], [], by simp, by simp, by simp [h1]⟩

/-- C3: whenever the receive loop returns a frame, that frame is not a
ping (pings were each answered with exactly one pong and consumed), the
returned frame is the first one passing the expected-message and
expected-id checks, and every earlier frame was discarded as
non-matching. -/
theorem recv_until_loop_behavior :
    ∀ (em : Option String) (eid : Option Int) (frames sent : List JVal)
      (f : JVal) (rest : List JVal),
      recv_until em eid frames [] = some (sent, f, rest) →
        isPing f = false
        ∧ isMatch em eid f = true
        ∧ ∃ pre, frames = pre ++ f :: rest
            ∧ (∀ g ∈ pre, isMatch em eid g = false)
            ∧ sent = List.replicate (pre.countP isPing) pongFrame := by
  intro em eid frames sent f rest h
  obtain ⟨hm, pre, hfr, hall, hsent⟩ :=
    recv_until_characterization em eid frames [] sent f rest h
  have hping : isPing f = false := by
    have := hm
    simp only [isMatch, Bool.and_eq_true, Bool.not_eq_true'] at this
    exact this.1.1
  exact ⟨hping, hm, pre, hfr, hall, by simpa using hsent⟩

/-- Example ping frame. -/
def pingFrameEx : JVal := .jobj [("msg", .jstr "ping")]

/-- Example result frame with id 1. -/
def resultFrameEx : JVal :=
  .jobj [("msg", .jstr "result"), ("id", .jint 1), ("result", .jbool true)]

/-- Witness for the C3 theorem on a concrete stream: a ping followed by
the awaited result frame. -/
theorem recv_until_loop_behavior_witness :
    isPing resultFrameEx = false
    ∧ isMatch (some "result") (some 1) resultFrameEx = true
    ∧ ∃ pre, ([pingFrameEx, resultFrameEx] : List JVal) = pre ++ resultFrameEx :: []
        ∧ (∀ g ∈ pre, isMatch (some "result") (some 1) g = false)
        ∧ [pongFrame] = List.replicate (pre.countP isPing) pongFrame :=
  recv_until_loop_behavior (some "result") (some 1) [pingFrameEx, resultFrameEx]
    [pongFrame] resultFrameEx [] rfl

/-- Handshake frame sent by connect. -/
def connectFrame : JVal :=
  .jobj [("msg", .jstr "connect"), ("version", .jstr "1"),
         ("support", .jarr [.jstr "1"])]

/-- Login frame built by TrueNASClient._authenticate. -/
def loginFrame (login_id : Nat) (api_key : String) : JVal :=
  .jobj [("id", .jint login_id), ("msg", .jstr "method"),
         ("method", .jstr "auth.login_with_api_key"),
         ("params", .jarr [.jstr api_key])]

/-- Python identity test `v is True`: only the boolean `True` passes. -/
def jIsTrueLit : JVal → Bool
  | .jbool true => true
  | _ => false

/-- TrueNASClient._authenticate.  `api_key` models
`settings.TRUENAS_API_KEY`, which the configuration loader stores as the
empty string when the variable is unset.  Returns (new state, frames
sent, remaining incoming frames). -/
def _authenticate (api_key : String) (st : ClientState) (incoming : List JVal) :
    Except String (ClientState × List JVal × List JVal) :=
  if st.authed then .ok (st, [], incoming)
  else if api_key == "" then .error "TRUENAS_API_KEY is not configured"
  else
    let login_id := st.rid + 1
    let st1 : ClientState := { st with rid := login_id }
    match recv_until (some "result") (some ((login_id : Nat) : Int)) incoming
        [loginFrame login_id api_key] with
    | none => .error "connection closed before auth response"
    | some (sent, resp, rest) =>
      if pyTruthy (jGet resp "error") then .error "TrueNAS auth error"
      else if !(jIsTrueLit (jGet resp "result")) then .error "TrueNAS auth rejected"
      else .ok ({ st1 with authed := true }, sent, rest)

/-- TrueNASClient.connect: returns immediately when the socket handle is
already set; otherwise requires configuration, performs the handshake and
authenticates.  On failure the socket is released and the error
propagates (the closed post-state is not tracked by the error branch). -/
def connect (configured : Bool) (api_key : String) (st : ClientState)
    (incoming : List JVal) : Except String (ClientState × List JVal) :=
  if st.ws then .ok (st, [])
  else if configured = false then .error "TrueNAS middleware not configured"
  else
    let st1 : ClientState := { st with ws := true }
    match recv_until (some "connected") none incoming [connectFrame] with
    | none => .error "no handshake response"
    | some (sent, handshake, rest) =>
      if jEqStr (jGet handshake "msg") "connected" = false then
        .error "Middleware handshake failed"
      else
        match _authenticate api_key st1 rest with
        | .error e => .error e
        | .ok (st2, sent2, _) => .ok (st2, sent ++ sent2)

/-- C10: connect is idempotent at the public interface: once the socket
handle is set, a further connect returns immediately, sends no frame, and
leaves the whole client state (socket, authenticated flag, request-id
counter) unchanged. -/
theorem connect_idempotent :
    ∀ (configured : Bool) (api_key : String) (st : ClientState) (inc : List JVal),
      st.ws = true → connect configured api_key st inc = .ok (st, []) := by
  intro cfg key st inc h
  simp [connect, h]

/-- Witness for the C10 theorem on a concrete already-connected client. -/
theorem connect_idempotent_witness :
    connect true "k" ⟨true, true, 7⟩ [] = .ok (⟨true, true, 7⟩, []) :=
  connect_idempotent true "k" ⟨true, true, 7⟩ [] rfl

theorem jIsTrueLit_iff (v : JVal) : jIsTrueLit v = true ↔ v = .jbool true := by
  cases v with
  | jbool b => cases b <;> simp [jIsTrueLit]
  | jnull => simp [jIsTrueLit]
  | jint n => simp [jIsTrueLit]
  | jstr s => simp [jIsTrueLit]
  | jarr xs => simp [jIsTrueLit]
  | jobj fs => simp [jIsTrueLit]

/-- C4: authenticate fails when the API key is absent, when the login
response carries an error payload, or when its result is not exactly the
boolean true; it sets the authenticated flag exactly on a true result;
and a repeated call on an already-authenticated client returns
immediately, sending no frame and changing no state. -/
theorem authenticate_contract :
    (∀ (key : String) (st : ClientState) (inc : List JVal), st.authed = true →
        _authenticate key st inc = .ok (st, [], inc))
    ∧ (∀ (st : ClientState) (inc : List JVal), st.authed = false →
        _authenticate "" st inc = .error "TRUENAS_API_KEY is not configured")
    ∧ (∀ (key : String) (st : ClientState) (inc : List JVal)
        (out : ClientState × List JVal × List JVal), st.authed = false →
        _authenticate key st inc = .ok out →
          out.1.authed = true
          ∧ ∃ resp,
              recv_until (some "result") (some (((st.rid + 1 : Nat)) : Int)) inc
                [loginFrame (st.rid + 1) key] = some (out.2.1, resp, out.2.2)
              ∧ pyTruthy (jGet resp "error") = false
              ∧ jGet resp "result" = .jbool true)
    ∧ (∀ (key : String) (st : ClientState) (inc sent : List JVal) (resp : JVal)
        (rest : List JVal), st.authed = false → key ≠ "" →
        recv_until (some "result") (some (((st.rid + 1 : Nat)) : Int)) inc
          [loginFrame (st.rid + 1) key] = some (sent, resp, rest) →
        (pyTruthy (jGet resp "error") = true ∨ jGet resp "result" ≠ .jbool true) →
        ∃ e, _authenticate key st inc = .error e) := by
  refine ⟨?_, ?_, ?_, ?_⟩
  · intro key st inc h
    simp [_authenticate, h]
  · intro st inc h
    simp [_authenticate, h]
  · intro key st inc out h hok
    by_cases hk : key == ""
    · simp [_authenticate, h, hk] at hok
    · simp only [_authenticate, h, Bool.false_eq_true, if_false, hk] at hok
      cases hrecv : recv_until (some "result") (some (((st.rid + 1 : Nat)) : Int)) inc
          [loginFrame (st.rid + 1) key] with
      | none => rw [hrecv] at hok; simp at hok
      | some trip =>
        obtain ⟨sent, resp, rest⟩ := trip
        rw [hrecv] at hok
        by_cases herr : pyTruthy (jGet resp "error") = true
        · simp [herr] at hok
        · have herr' : pyTruthy (jGet resp "error") = false := by simpa using herr
          by_cases hres : jIsTrueLit (jGet resp "result") = true
          · simp only [herr', Bool.false_eq_true, if_false, hres, Bool.not_true,
              Except.ok.injEq] at hok
            subst hok
            exact ⟨rfl, resp, rfl, herr', (jIsTrueLit_iff _).1 hres⟩
          · have hres' : jIsTrueLit (jGet resp "result") = false := by simpa using hres
            simp [herr', hres'] at hok
  · intro key st inc sent resp rest h hk hrecv hbad
    have hk' : (key == "") = false := by simpa using hk
    by_cases herr : pyTruthy (jGet resp "error") = true
    · refine ⟨"TrueNAS auth error", ?_⟩
      simp only [_authenticate, h, Bool.false_eq_true, if_false, hk', hrecv, herr]
      simp
    · have herr' : pyTruthy (jGet resp "error") = false := by simpa using herr
      have hres' : jIsTrueLit (jGet resp "result") = false := by
        by_cases hh : jIsTrueLit (jGet resp "result") = true
        · rcases hbad with hb | hb
          · exact absurd hb herr
          · exact absurd ((jIsTrueLit_iff _).1 hh) hb
        · simpa using hh
      refine ⟨"TrueNAS auth rejected", ?_⟩
      simp only [_authenticate, h, Bool.false_eq_true, if_false, hk', hrecv, herr', hres']
      simp

/-- Response frame whose result is the integer 1 rather than the boolean
true (used as a rejected-login witness). -/
def intOneResultFrame : JVal :=
  .jobj [("msg", .jstr "result"), ("id", .jint 1), ("result", .jint 1)]

/-- Witness for the C4 theorem: an already-authenticated no-op, a
missing-key failure, a successful login, and a login whose result is the
integer 1 (not the boolean true) being rejected. -/
theorem authenticate_contract_witness :
    _authenticate "k" ⟨true, true, 3⟩ [] = .ok (⟨true, true, 3⟩, [], [])
    ∧ _authenticate "" ⟨true, false, 0⟩ [] = .error "TRUENAS_API_KEY is not configured"
    ∧ ((_authenticate "k" ⟨true, false, 0⟩ [resultFrameEx]).map
        (fun out => out.1.authed) = .ok true)
    ∧ (∃ e, _authenticate "k" ⟨true, false, 0⟩ [intOneResultFrame] = .error e) := by
  refine ⟨authenticate_contract.1 "k" ⟨true, true, 3⟩ [] rfl,
    authenticate_contract.2.1 ⟨true, false, 0⟩ [] rfl, ?_, ?_⟩
  · have h := authenticate_contract.2.2.1 "k" ⟨true, false, 0⟩ [resultFrameEx]
      (⟨true, true, 1⟩, [loginFrame 1 "k"], []) rfl rfl
    rw [show _authenticate "k" ⟨true, false, 0⟩ [resultFrameEx]
      = .ok (⟨true, true, 1⟩, [loginFrame 1 "k"], []) from rfl]
    have ha : (⟨true, true, 1⟩ : ClientState).authed = true := h.1
    simp [Except.map, ha]
  · exact authenticate_contract.2.2.2 "k" ⟨true, false, 0⟩ [intOneResultFrame]
      [loginFrame 1 "k"] intOneResultFrame [] rfl (by decide) rfl
      (Or.inr (fun hcontr => JVal.noConfusion hcontr))

/-- Method-call frame built by TrueNASClient.call. -/
def methodFrame (req_id : Nat) (method : String) (params : List JVal) : JVal :=
  .jobj [("id", .jint req_id), ("msg", .jstr "method"), ("method", .jstr method),
         ("params", .jarr params)]

/-- TrueNASClient.call: requires the socket and authentication, allocates
a fresh request id, sends the method frame, awaits the matching result
frame, raises on an error payload, and returns the result field.
Result: (new state, frames sent, call result). -/
def call (st : ClientState) (method : String) (params : List JVal)
    (incoming : List JVal) :
    Except String (ClientState × List JVal × JVal) :=
  if st.ws = false then .error "Client not connected"
  else if st.authed = false then .error "Client not authenticated"
  else
    let req_id := st.rid + 1
    let st1 : ClientState := { st with rid := req_id }
    match recv_until (some "result") (some ((req_id : Nat) : Int)) incoming
        [methodFrame req_id method params] with
    | none => .error "connection closed before call response"
    | some (sent, resp, _) =>
      if pyTruthy (jGet resp "error") then .error "middleware error payload"
      else .ok (st1, sent, jGet resp "result")

/-- Python dict update: a duplicated literal key overwrites the earlier
value in place, preserving insertion order. -/
def dictInsert (fields : List (String × JVal)) (k : String) (v : JVal) :
    List (String × JVal) :=
  if (fields.lookup k).isSome then
    fields.map (fun kv => if kv.1 == k then (k, v) else kv)
  else fields ++ [(k, v)]

/-- Python dict literal built left to right with duplicate-key overwrite. -/
def mkDict (entries : List (String × JVal)) : JVal :=
  .jobj (entries.foldl (fun acc kv => dictInsert acc kv.1 kv.2) [])

/-- TrueNASClient.subscribe: fire-and-forget sub frame drawing a fresh
counter id; the duplicated "id" key of the Python dict literal means the
frame's id field carries the subscription id, although a counter id is
still consumed. -/
def subscribe (st : ClientState) (collection sub_id : String) :
    Except String (ClientState × JVal) :=
  if st.ws = false then .error "Client not connected"
  else if st.authed = false then .error "Client not authenticated"
  else
    let p := next_id st
    .ok (p.2, mkDict [("id", .jint p.1), ("msg", .jstr "sub"),
                      ("name", .jstr collection), ("id", .jstr sub_id)])

/-- TrueNASClient.unsubscribe: fire-and-forget unsub frame, same
duplicate-key behaviour as subscribe. -/
def unsubscribe (st : ClientState) (sub_id : String) :
    Except String (ClientState × JVal) :=
  if st.ws = false then .error "Client not connected"
  else if st.authed = false then .error "Client not authenticated"
  else
    let p := next_id st
    .ok (p.2, mkDict [("id", .jint p.1), ("msg", .jstr "unsub"),
                      ("id", .jstr sub_id)])

/-- Iterates `_next_id`, collecting the ids handed out. -/
def run_next_ids : ClientState → Nat → List Nat × ClientState
  | st, 0 => ([], st)
  | st, n + 1 =>
    let p := next_id st
    let q := run_next_ids p.2 n
    (p.1 :: q.1, q.2)

theorem run_next_ids_range (st : ClientState) (n : Nat) :
    (run_next_ids st n).1 = List.range' (st.rid + 1) n := by
  induction n generalizing st with
  | zero => simp [run_next_ids]
  | succ n ih =>
    simp only [run_next_ids, next_id, List.range'_succ]
    rw [ih]

/-- C7: the request-id counter starts at 0 and is incremented before
every use, so a client drawing n ids uses exactly 1, 2, ..., n — strictly
increasing, no id reused; authenticate, call, subscribe and unsubscribe
each draw their id from this counter (the frame they build carries the
freshly drawn value) and leave the counter at the drawn value. -/
theorem request_id_counter_monotone :
    initClient.rid = 0
    ∧ (∀ st : ClientState, next_id st = (st.rid + 1, { st with rid := st.rid + 1 }))
    ∧ (∀ (ws authed : Bool) (n : Nat),
        (run_next_ids ⟨ws, authed, 0⟩ n).1 = List.range' 1 n)
    ∧ (∀ (st : ClientState) (n : Nat), ((run_next_ids st n).1).Pairwise (· < ·))
    ∧ (∀ (key : String) (st : ClientState) (inc : List JVal)
        (out : ClientState × List JVal × List JVal), st.authed = false →
        _authenticate key st inc = .ok out →
          out.1.rid = st.rid + 1
          ∧ out.2.1.head? = some (loginFrame (st.rid + 1) key))
    ∧ (∀ (st : ClientState) (m : String) (ps inc : List JVal)
        (out : ClientState × List JVal × JVal),
        call st m ps inc = .ok out →
          out.1.rid = st.rid + 1
          ∧ out.2.1.head? = some (methodFrame (st.rid + 1) m ps))
    ∧ (∀ (st : ClientState) (coll sid : String), st.ws = true → st.authed = true →
        subscribe st coll sid = .ok ({ st with rid := st.rid + 1 },
          mkDict [("id", .jint (st.rid + 1)), ("msg", .jstr "sub"),
                  ("name", .jstr coll), ("id", .jstr sid)]))
    ∧ (∀ (st : ClientState) (sid : String), st.ws = true → st.authed = true →
        unsubscribe st sid = .ok ({ st with rid := st.rid + 1 },
          mkDict [("id", .jint (st.rid + 1)), ("msg", .jstr "unsub"),
                  ("id", .jstr sid)])) := by
  refine ⟨rfl, fun st => rfl, ?_, ?_, ?_, ?_, ?_, ?_⟩
  · intro ws authed n
    simpa using run_next_ids_range ⟨ws, authed, 0⟩ n
  · intro st n
    rw [run_next_ids_range]
    exact List.pairwise_lt_range' _ _
  · intro key st inc out h hok
    by_cases hk : key == ""
    · simp [_authenticate, h, hk] at hok
    · simp only [_authenticate, h, Bool.false_eq_true, if_false, hk] at hok
      cases hrecv : recv_until (some "result") (some (((st.rid + 1 : Nat)) : Int)) inc
          [loginFrame (st.rid + 1) key] with
      | none => rw [hrecv] at hok; simp at hok
      | some trip =>
        obtain ⟨sent, resp, rest⟩ := trip
        rw [hrecv] at hok
        by_cases herr : pyTruthy (jGet resp "error") = true
        · simp [herr] at hok
        · have herr' : pyTruthy (jGet resp "error") = false := by simpa using herr
          by_cases hres : jIsTrueLit (jGet resp "result") = true
          · simp only [herr', Bool.false_eq_true, if_false, hres, Bool.not_true,
              Except.ok.injEq] at hok
            subst hok
            obtain ⟨-, pre, -, -, hsent⟩ :=
              recv_until_characterization _ _ _ _ _ _ _ hrecv
            exact ⟨rfl, by simp [hsent]⟩
          · have hres' : jIsTrueLit (jGet resp "result") = false := by simpa using hres
            simp [herr', hres'] at hok
  · intro st m ps inc out hok
    by_cases hw : st.ws = false
    · simp [call, hw] at hok
    · have hw' : st.ws = true := by simpa using hw
      by_cases ha : st.authed = false
      · simp [call, hw', ha] at hok
      · have ha' : st.authed = true := by simpa using ha
        simp only [call, hw', Bool.true_eq_false, if_false, ha'] at hok
        cases hrecv : recv_until (some "result") (some (((st.rid + 1 : Nat)) : Int)) inc
            [methodFrame (st.rid + 1) m ps] with
        | none => rw [hrecv] at hok; simp at hok
        | some trip =>
          obtain ⟨sent, resp, rest⟩ := trip
          rw [hrecv] at hok
          by_cases herr : pyTruthy (jGet resp "error") = true
          · simp [herr] at hok
          · have herr' : pyTruthy (jGet resp "error") = false := by simpa using herr
            simp only [herr', Bool.false_eq_true, if_false, Except.ok.injEq] at hok
            subst hok
            obtain ⟨-, pre, -, -, hsent⟩ :=
              recv_until_characterization _ _ _ _ _ _ _ hrecv
            exact ⟨rfl, by simp [hsent]⟩
  · intro st coll sid hw ha
    simp [subscribe, hw, ha, next_id]
  · intro st sid hw ha
    simp [unsubscribe, hw, ha, next_id]

/-- Witness for the C7 theorem: three ids drawn from a fresh client are
[1, 2, 3]; concrete authenticate, call, subscribe and unsubscribe runs
each draw id 1 from a counter at 0. -/
theorem request_id_counter_monotone_witness :
    (run_next_ids ⟨false, false, 0⟩ 3).1 = List.range' 1 3
    ∧ ((⟨true, true, 1⟩ : ClientState).rid = 0 + 1
        ∧ ([loginFrame 1 "k"] : List JVal).head? = some (loginFrame (0 + 1) "k"))
    ∧ ((⟨true, true, 1⟩ : ClientState).rid = 0 + 1
        ∧ ([methodFrame 1 "system.version" []] : List JVal).head?
            = some (methodFrame (0 + 1) "system.version" []))
    ∧ subscribe ⟨true, true, 0⟩ "core.get_jobs" "s" = .ok (⟨true, true, 1⟩,
        mkDict [("id", .jint 1), ("msg", .jstr "sub"),
                ("name", .jstr "core.get_jobs"), ("id", .jstr "s")])
    ∧ unsubscribe ⟨true, true, 0⟩ "s" = .ok (⟨true, true, 1⟩,
        mkDict [("id", .jint 1), ("msg", .jstr "unsub"), ("id", .jstr "s")]) :=
  ⟨request_id_counter_monotone.2.2.1 false false 3,
    request_id_counter_monotone.2.2.2.2.1 "k" ⟨true, false, 0⟩ [resultFrameEx]
      (⟨true, true, 1⟩, [loginFrame 1 "k"], []) rfl rfl,
    request_id_counter_monotone.2.2.2.2.2.1 ⟨true, true, 0⟩ "system.version" []
      [resultFrameEx] (⟨true, true, 1⟩, [methodFrame 1 "system.version" []],
        JVal.jbool true) rfl,
    request_id_counter_monotone.2.2.2.2.2.2.1 ⟨true, true, 0⟩ "core.get_jobs" "s" rfl rfl,
    request_id_counter_monotone.2.2.2.2.2.2.2 ⟨true, true, 0⟩ "s" rfl rfl⟩

/-- Whitespace characters stripped by Python int() on strings. -/
def isWsChar (c : Char) : Bool :=
  c == ' ' || c == '\t' || c == '\n' || c == '\r'

/-- Strips leading and trailing whitespace. -/
def stripWs (cs : List Char) : List Char :=
  ((cs.dropWhile isWsChar).reverse.dropWhile isWsChar).reverse

/-- Value of a nonempty all-digit character run. -/
def digitsVal (cs : List Char) : Option Nat :=
  if cs.isEmpty then none
  else if cs.all Char.isDigit then
    some (cs.foldl (fun acc c => acc * 10 + (c.toNat - '0'.toNat)) 0)
  else none

/-- Python `int(s)` on a string: optional sign, decimal digits,
surrounding whitespace ignored; `none` models the ValueError. -/
def pyParseInt (s : String) : Option Int :=
  match stripWs s.data with
  | '+' :: rest => (digitsVal rest).map (fun n => (n : Int))
  | '-' :: rest => (digitsVal rest).map (fun n => -(n : Int))
  | cs => (digitsVal cs).map (fun n => (n : Int))

/-- Python `int(v)` on a JSON value: ints pass through, bools map to 0/1,
strings are parsed; anything else raises (`none`). -/
def pyIntFn : JVal → Option Int
  | .jint n => some n
  | .jbool b => some (if b then 1 else 0)
  | .jstr s => pyParseInt s
  | _ => none

/-- Python `isinstance(v, int)`: bools are ints in Python. -/
def pyIsInstInt : JVal → Bool
  | .jint _ => true
  | .jbool _ => true
  | _ => false

/-- Job-id extraction block at the end of ZfsService.restore_path: a dict
carrying an "id" member yields that member, an int(-like) result is
returned as-is, anything else goes through `int()`; a missing or null
job id raises (`none`). -/
def extract_job_id (result : JVal) : Option JVal :=
  let job_id : Option JVal :=
    match result with
    | .jobj fields =>
      if (fields.lookup "id").isSome then fields.lookup "id"
      else (pyIntFn result).map JVal.jint
    | _ =>
      if pyIsInstInt result then some result
      else (pyIntFn result).map JVal.jint
  match job_id with
  | some .jnull => none
  | some v => some v
  | none => none

/-- Backend filesystem.copy request issued by restore_path. -/
structure CopyCall where
  src_host : String
  dest_host : String
  recursive : Bool
  preserve : Bool
  overwrite : Bool

/-- ZfsService.restore_path: composes the snapshot-relative container
source path, performs the two textual snapshot-marker checks, maps both
paths to the host namespace, issues the filesystem.copy request and
extracts the job id from the backend response.  Result: (backend copy
calls issued, job id or error). -/
def restore_path (dataset snapshot subpath target_container_path : String)
    (overwrite : Bool) (backend : CopyCall → JVal) :
    List CopyCall × Except String JVal :=
  let sub := pyLStripSlash subpath
  let src_container_path :=
    pyNormpath (pyJoin ["/data", dataset, ".zfs", "snapshot", snapshot, sub])
  if strContains src_container_path ".zfs/snapshot/" = false then
    ([], .error "Source must be inside a .zfs/snapshot path")
  else if strContains target_container_path ".zfs/snapshot" = true then
    ([], .error "Destination must not be inside a snapshot path")
  else
    let src_host := container_to_host_path src_container_path
    let dest_host := container_to_host_path target_container_path
    let c : CopyCall := ⟨src_host, dest_host, true, true, overwrite⟩
    let result := backend c
    match extract_job_id result with
    | some v => ([c], .ok v)
    | none =>
      ([c], .error "middleware returned unexpected result for filesystem.copy")

/-- Copy call issued by restore_path on the fixed valid example inputs. -/
def copyCallEx : CopyCall :=
  ⟨"/mnt/ds/.zfs/snapshot/s1/f", "/mnt/ds/f", true, true, false⟩

theorem restore_path_fixed_eval (backend : CopyCall → JVal) :
    restore_path "ds" "s1" "f" "/data/ds/f" false backend =
      (match extract_job_id (backend copyCallEx) with
       | some v => ([copyCallEx], Except.ok v)
       | none =>
         ([copyCallEx],
           Except.error "middleware returned unexpected result for filesystem.copy")) :=
  rfl

/-- Backend response shapes recognised by the job-id extraction: a bare
integer (Python bools included), a string, or an object with an "id"
member. -/
def jobIdShape (v : JVal) : Bool :=
  pyIsInstInt v
  || (match v with | .jstr _ => true | _ => false)
  || (match v with | .jobj fs => (fs.lookup "id").isSome | _ => false)

/-- C5: the backend copy responses 42, the object with id 42, and the
string "42" each make restore_path return job id 42; any response
matching none of the recognised shapes (for example an object with only
a status member) makes restore_path raise an unexpected-result error. -/
theorem restore_job_id_shapes :
    (restore_path "ds" "s1" "f" "/data/ds/f" false (fun _ => .jint 42)).2
      = .ok (.jint 42)
    ∧ (restore_path "ds" "s1" "f" "/data/ds/f" false
        (fun _ => .jobj [("id", .jint 42)])).2 = .ok (.jint 42)
    ∧ (restore_path "ds" "s1" "f" "/data/ds/f" false (fun _ => .jstr "42")).2
      = .ok (.jint 42)
    ∧ (∃ e, (restore_path "ds" "s1" "f" "/data/ds/f" false
        (fun _ => .jobj [("status", .jstr "ok")])).2 = .error e)
    ∧ (∀ resp, jobIdShape resp = false →
        ∃ e, (restore_path "ds" "s1" "f" "/data/ds/f" false (fun _ => resp)).2
          = .error e) := by
  refine ⟨rfl, rfl, rfl,
    ⟨"middleware returned unexpected result for filesystem.copy", rfl⟩, ?_⟩
  intro resp hshape
  have hnone : extract_job_id resp = none := by
    cases resp with
    | jnull => rfl
    | jbool b => simp [jobIdShape, pyIsInstInt] at hshape
    | jint n => simp [jobIdShape, pyIsInstInt] at hshape
    | jstr s => simp [jobIdShape, pyIsInstInt] at hshape
    | jarr xs => rfl
    | jobj fs =>
      simp only [jobIdShape, pyIsInstInt, Bool.false_or, Bool.or_eq_false_iff] at hshape
      simp [extract_job_id, hshape, pyIntFn]
  refine ⟨"middleware returned unexpected result for filesystem.copy", ?_⟩
  rw [restore_path_fixed_eval]
  simp [hnone]

/-- Witness for the C5 theorem: a list-shaped backend response raises. -/
theorem restore_job_id_shapes_witness :
    ∃ e, (restore_path "ds" "s1" "f" "/data/ds/f" false
      (fun _ => JVal.jarr [])).2 = .error e :=
  restore_job_id_shapes.2.2.2.2 (JVal.jarr []) rfl

/-- C2 counterexample: for the destination "/etc/x" the full restore
guard (realpath containment included) rejects the pair, yet restore_path
issues the backend copy request and returns a job id — the
realpath-containment condition is never evaluated by restore_path. -/
theorem restore_path_skips_realpath_guard :
    (∃ e, validate_restore_paths realpath_nosymlink
        "/data/ds/.zfs/snapshot/s1/f" "/etc/x" = .error e)
    ∧ (restore_path "ds" "s1" "f" "/etc/x" false (fun _ => .jint 7)).1
        = [⟨"/mnt/ds/.zfs/snapshot/s1/f", "/etc/x", true, true, false⟩]
    ∧ (restore_path "ds" "s1" "f" "/etc/x" false (fun _ => .jint 7)).2
        = .ok (.jint 7) :=
  ⟨⟨"Restore paths must reside under /data", rfl⟩, rfl, rfl⟩

/-- C2 amended: before issuing the backend copy, restore_path performs
only the two textual snapshot-marker checks on the composed source path
and the destination; whenever one of them fails it raises without making
any backend call, and a backend call is only ever issued with both
checks passed.  The realpath-containment condition of the full guard is
not evaluated by restore_path. -/
theorem restore_path_textual_guard (dataset snapshot subpath target : String)
    (ov : Bool) (backend : CopyCall → JVal) :
    ((strContains (pyNormpath (pyJoin ["/data", dataset, ".zfs", "snapshot",
          snapshot, pyLStripSlash subpath])) ".zfs/snapshot/" = false
      ∨ strContains target ".zfs/snapshot" = true) →
      (restore_path dataset snapshot subpath target ov backend).1 = []
      ∧ ∃ e, (restore_path dataset snapshot subpath target ov backend).2 = .error e)
    ∧ ((restore_path dataset snapshot subpath target ov backend).1 ≠ [] →
      strContains (pyNormpath (pyJoin ["/data", dataset, ".zfs", "snapshot",
          snapshot, pyLStripSlash subpath])) ".zfs/snapshot/" = true
      ∧ strContains target ".zfs/snapshot" = false) := by
  constructor
  · intro hbad
    rcases hbad with h1 | h2
    · simp [restore_path, h1]
    · by_cases h1 : strContains (pyNormpath (pyJoin ["/data", dataset, ".zfs",
          "snapshot", snapshot, pyLStripSlash subpath])) ".zfs/snapshot/" = false
      · simp [restore_path, h1]
      · have h1' : strContains (pyNormpath (pyJoin ["/data", dataset, ".zfs",
            "snapshot", snapshot, pyLStripSlash subpath])) ".zfs/snapshot/" = true := by
          simpa using h1
        simp [restore_path, h1', h2]
  · intro hne
    by_cases h1 : strContains (pyNormpath (pyJoin ["/data", dataset, ".zfs",
        "snapshot", snapshot, pyLStripSlash subpath])) ".zfs/snapshot/" = false
    · simp [restore_path, h1] at hne
    · have h1' : strContains (pyNormpath (pyJoin ["/data", dataset, ".zfs",
          "snapshot", snapshot, pyLStripSlash subpath])) ".zfs/snapshot/" = true := by
        simpa using h1
      by_cases h2 : strContains target ".zfs/snapshot" = true
      · simp [restore_path, h1', h2] at hne
      · exact ⟨h1', by simpa using h2⟩

/-- Witness for the C2 amended theorem: a destination inside a snapshot
path is rejected with no backend call. -/
theorem restore_path_textual_guard_witness :
    (restore_path "ds" "s1" "" "/data/ds/.zfs/snapshot/s1" false
      (fun _ => JVal.jint 7)).1 = []
    ∧ ∃ e, (restore_path "ds" "s1" "" "/data/ds/.zfs/snapshot/s1" false
      (fun _ => JVal.jint 7)).2 = .error e :=
  (restore_path_textual_guard "ds" "s1" "" "/data/ds/.zfs/snapshot/s1" false
    (fun _ => JVal.jint 7)).1 (Or.inr rfl)

/-- Default diff structure substituted for a falsy backend result. -/
def emptyDiff : JVal :=
  .jobj [("added", .jarr []), ("removed", .jarr []), ("modified", .jarr [])]

/-- Python `k in d` on a JSON object. -/
def jHasKey (v : JVal) (k : String) : Bool :=
  match v with
  | .jobj fields => (fields.lookup k).isSome
  | _ => false

/-- utils.zfs.snapshot_diff on a request-scoped client: one
zfs.snapshot.get_diff call; a falsy result is replaced by the empty
three-key structure.  Result: (backend methods called, value). -/
def snapshot_diff (dataset a b : String)
    (backend : String → List JVal → JVal) : List String × JVal :=
  let result := backend "zfs.snapshot.get_diff"
    [.jstr (dataset ++ "@" ++ a), .jstr (dataset ++ "@" ++ b)]
  (["zfs.snapshot.get_diff"], if pyTruthy result then result else emptyDiff)

/-- C8 counterexample: a truthy backend diff result that lacks two of
the three keys is returned unchanged, so the caller observes an object
with no "removed" key. -/
theorem snapshot_diff_counterexample :
    (snapshot_diff "tank/a" "s1" "s2"
      (fun _ _ => .jobj [("added", .jarr [.jstr "f"])])).2
        = .jobj [("added", .jarr [.jstr "f"])]
    ∧ jHasKey ((snapshot_diff "tank/a" "s1" "s2"
        (fun _ _ => .jobj [("added", .jarr [.jstr "f"])])).2) "removed" = false :=
  ⟨rfl, rfl⟩

/-- C8 amended: snapshot_diff substitutes the explicit structure with all
three keys (added, removed, modified, each an empty list) exactly when
the backend diff result is falsy — null, false, 0, or an empty
string/array/object; a truthy result is returned unchanged, so all three
keys are guaranteed only in the falsy case or when the backend result
itself carries them. -/
theorem snapshot_diff_amended (dataset a b : String)
    (backend : String → List JVal → JVal) :
    (pyTruthy (backend "zfs.snapshot.get_diff"
        [.jstr (dataset ++ "@" ++ a), .jstr (dataset ++ "@" ++ b)]) = false →
      (snapshot_diff dataset a b backend).2 = emptyDiff
      ∧ jHasKey (snapshot_diff dataset a b backend).2 "added" = true
      ∧ jHasKey (snapshot_diff dataset a b backend).2 "removed" = true
      ∧ jHasKey (snapshot_diff dataset a b backend).2 "modified" = true)
    ∧ (pyTruthy (backend "zfs.snapshot.get_diff"
        [.jstr (dataset ++ "@" ++ a), .jstr (dataset ++ "@" ++ b)]) = true →
      (snapshot_diff dataset a b backend).2 = backend "zfs.snapshot.get_diff"
        [.jstr (dataset ++ "@" ++ a), .jstr (dataset ++ "@" ++ b)]) := by
  constructor
  · intro h
    refine ⟨?_, ?_, ?_, ?_⟩ <;> simp [snapshot_diff, h, emptyDiff, jHasKey]
  · intro h
    simp [snapshot_diff, h]

/-- Witness for the C8 amended theorem at a null backend result. -/
theorem snapshot_diff_amended_witness :
    (snapshot_diff "tank/a" "s1" "s2" (fun _ _ => JVal.jnull)).2 = emptyDiff
    ∧ jHasKey (snapshot_diff "tank/a" "s1" "s2" (fun _ _ => JVal.jnull)).2 "added" = true
    ∧ jHasKey (snapshot_diff "tank/a" "s1" "s2" (fun _ _ => JVal.jnull)).2 "removed" = true
    ∧ jHasKey (snapshot_diff "tank/a" "s1" "s2" (fun _ _ => JVal.jnull)).2 "modified" = true :=
  (snapshot_diff_amended "tank/a" "s1" "s2" (fun _ _ => JVal.jnull)).1 rfl

/-- Snapshot cache of ZfsService: dataset key mapped to (timestamp,
snapshot list). -/
abbrev SnapCache := List (String × Nat × JVal)

/-- Python `cache.pop(key, None)`. -/
def cachePop (cache : SnapCache) (key : String) : SnapCache :=
  cache.filter (fun e => e.1 != key)

/-- Helper for `splitOnChar`. -/
def splitOnCharAux (sep : Char) : List Char → List Char → List String
  | [], acc => [String.mk acc.reverse]
  | c :: rest, acc =>
    if c == sep then String.mk acc.reverse :: splitOnCharAux sep rest []
    else splitOnCharAux sep rest (c :: acc)

/-- Python `s.split(sep)` for a single-character separator. -/
def splitOnChar (sep : Char) (s : String) : List String :=
  splitOnCharAux sep s.data []

/-- Per-snapshot enrichment performed by utils.zfs.list_snapshots:
created_at from the parsed creation property (null when missing, falsy
or unparsable — `parseDate` abstracts datetime.fromisoformat),
snapshot_name as the part after the last "@" of the name, and full_name
as the raw name. -/
def snapEnrich (parseDate : String → Option Int) (s : JVal) : JVal :=
  let raw := jGet (jGet (jGet s "properties") "creation") "parsed"
  let created_at : JVal :=
    match raw with
    | .jstr ss =>
      if ss != "" then
        match parseDate ss with
        | some t => .jint t
        | none => .jnull
      else .jnull
    | _ => .jnull
  let nameStr :=
    match jGet s "name" with
    | .jstr v => v
    | _ => ""
  match s with
  | .jobj fields =>
    JVal.jobj (dictInsert (dictInsert (dictInsert fields
      "created_at" created_at)
      "snapshot_name" (.jstr ((splitOnChar '@' nameStr).getLastD "")))
      "full_name" (jGet s "name"))
  | v => v

/-- utils.zfs.list_snapshots on a request-scoped client: one
zfs.snapshot.query call with an optional dataset filter, a falsy result
treated as the empty list, and per-snapshot enrichment.  Result:
(backend methods called, snapshots). -/
def list_snapshots_ll (parseDate : String → Option Int) (dataset : Option String)
    (backend : String → List JVal → JVal) : List String × JVal :=
  let filters : JVal :=
    match dataset with
    | some ds =>
      if ds != "" then .jarr [.jarr [.jstr "dataset", .jstr "=", .jstr ds]]
      else .jarr []
    | none => .jarr []
  let raw := backend "zfs.snapshot.query" [filters]
  let snaps := if pyTruthy raw then raw else .jarr []
  let enriched :=
    match snaps with
    | .jarr xs => JVal.jarr (xs.map (snapEnrich parseDate))
    | v => v
  (["zfs.snapshot.query"], enriched)

/-- ZfsService.list_snapshots: delegates to the low-level listing on the
request-scoped client; the snapshot cache is neither consulted nor
updated.  Result: (cache after the call, backend methods called,
snapshots). -/
def svc_list_snapshots (cache : SnapCache) (parseDate : String → Option Int)
    (dataset : Option String) (backend : String → List JVal → JVal) :
    SnapCache × List String × JVal :=
  let r := list_snapshots_ll parseDate dataset backend
  (cache, r.1, r.2)

/-- utils.zfs.rollback_snapshot: one zfs.snapshot.rollback call. -/
def rollback_snapshot_ll (dataset snapshot : String)
    (backend : String → List JVal → JVal) : List String × JVal :=
  (["zfs.snapshot.rollback"],
    backend "zfs.snapshot.rollback" [.jstr (dataset ++ "@" ++ snapshot)])

/-- ZfsService.rollback_snapshot: performs the rollback, then pops the
rolled-back dataset's cache entry. -/
def svc_rollback_snapshot (cache : SnapCache) (dataset snapshot : String)
    (backend : String → List JVal → JVal) : SnapCache × List String × JVal :=
  let r := rollback_snapshot_ll dataset snapshot backend
  (cachePop cache dataset, r.1, r.2)

/-- Backend stub answering every query with an empty list. -/
def emptyBackend : String → List JVal → JVal := fun _ _ => .jarr []

/-- C6 counterexample: after a listing of "tank/b" followed by a
rollback of "tank/a", a second listing of "tank/b" — however soon, hence
within any TTL window — still issues a fresh zfs.snapshot.query instead
of returning a cached result: ZfsService.list_snapshots never serves
from the snapshot cache. -/
theorem list_snapshots_cache_counterexample :
    (svc_list_snapshots
      (svc_rollback_snapshot
        (svc_list_snapshots [] (fun _ => none) (some "tank/b") emptyBackend).1
        "tank/a" "s1" emptyBackend).1
      (fun _ => none) (some "tank/b") emptyBackend).2.1 = ["zfs.snapshot.query"]
    ∧ (svc_list_snapshots
      (svc_rollback_snapshot
        (svc_list_snapshots [] (fun _ => none) (some "tank/b") emptyBackend).1
        "tank/a" "s1" emptyBackend).1
      (fun _ => none) (some "tank/b") emptyBackend).2.1 ≠ [] :=
  ⟨rfl, by decide⟩

/-- C6 amended: ZfsService.list_snapshots always issues exactly one
fresh zfs.snapshot.query and never reads or writes the snapshot cache —
so the listing after a rollback is fresh, but a listing within the TTL
of a previous listing of the same dataset is equally fresh; rollback
still pops exactly the rolled-back dataset's cache entry. -/
theorem list_snapshots_cache_amended :
    (∀ (cache : SnapCache) (pd : String → Option Int) (ds : Option String)
        (backend : String → List JVal → JVal),
      (svc_list_snapshots cache pd ds backend).2.1 = ["zfs.snapshot.query"]
      ∧ (svc_list_snapshots cache pd ds backend).1 = cache)
    ∧ (∀ (cache : SnapCache) (ds snap : String)
        (backend : String → List JVal → JVal),
      (svc_rollback_snapshot cache ds snap backend).1 = cachePop cache ds
      ∧ (svc_rollback_snapshot cache ds snap backend).2.1
          = ["zfs.snapshot.rollback"]) :=
  ⟨fun _ _ _ _ => ⟨rfl, rfl⟩, fun _ _ _ _ => ⟨rfl, rfl⟩⟩

end Shadowportal
